import Mathlib

/-!
# Shallow embedding of the CLMM liquidity-simulator core

This file embeds the quantitative core of the `cetusl_liqsim` repository
(TypeScript) in Lean 4 and proves/refutes the frozen claims about it.

Modelling conventions:
* JavaScript `number` arithmetic is modelled by exact rational arithmetic
  over `ℚ`.  The special value `Infinity` (produced by the source in a few
  guarded branches) is modelled by `Option ℚ`, with `none` standing for
  `Infinity`; the helper `jsMin` mirrors `Math.min` under that encoding.
* `Math.sqrt` has no exact computable counterpart on `ℚ`.  Where a source
  function computes `Math.sqrt` internally (`calculateCLMM_IL`,
  `priceToSqrtPriceX64`), the sqrt results are taken as extra arguments of
  the embedded function, and the theorems constrain them by
  `sqrt * sqrt = radicand ∧ 0 ≤ sqrt`.  Everything after the sqrt calls is
  embedded verbatim.
* `bn.js` big-number arithmetic (`tickMath.ts` / `liquidityMath.ts`) is
  non-negative integer arithmetic with floor division and shifts; it is
  modelled over `ℕ`.
* Thrown `Error`s are modelled by `Except String`; a source function that
  cannot throw is embedded as a plain total function.
-/

namespace CetusSim

/-- Direction tag for the `'below' | 'above' | 'in-range'` string union. -/
inductive RangeDir where
  | below
  | above
  | inRange
deriving DecidableEq, Repr

/-- Result record of `getAmountsForLiquidity` (`{ amount0, amount1 }`). -/
structure Amounts where
  amount0 : ℚ
  amount1 : ℚ
deriving DecidableEq, Repr

/-- Embedding of `getAmountsForLiquidity` (clmmMath, `src/unnamed/part_000`
lines 129–160): token amounts held by a position with liquidity `L` at the
given sqrt prices, in the three CLMM regimes. -/
def getAmountsForLiquidity (sqrtPrice sqrtPriceLower sqrtPriceUpper liquidity : ℚ) :
    Amounts :=
  if sqrtPrice ≤ sqrtPriceLower then
    { amount0 := 0
      amount1 := liquidity * (sqrtPriceUpper - sqrtPriceLower) }
  else if sqrtPrice ≥ sqrtPriceUpper then
    { amount0 := liquidity * (1 / sqrtPriceLower - 1 / sqrtPriceUpper)
      amount1 := 0 }
  else
    { amount0 := liquidity * (1 / sqrtPrice - 1 / sqrtPriceUpper)
      amount1 := liquidity * (sqrtPrice - sqrtPriceLower) }

/-- `Math.min` on JS numbers where `none` encodes `Infinity`. -/
def jsMin : Option ℚ → Option ℚ → Option ℚ
  | none, b => b
  | a, none => a
  | some a, some b => some (min a b)

/-- Embedding of `getLiquidityFromAmounts` (clmmMath, `src/unnamed/part_000`
lines 166–198).  The in-range branch sets an implied liquidity to
`Infinity` (`none`) when the corresponding denominator is non-positive and
takes `Math.min` of the two implied values. -/
def getLiquidityFromAmounts (sqrtPrice sqrtPriceLower sqrtPriceUpper amount0 amount1 : ℚ) :
    Option ℚ :=
  if sqrtPrice ≤ sqrtPriceLower then
    let denominator := 1 / sqrtPriceLower - 1 / sqrtPriceUpper
    some (if denominator > 0 then amount0 / denominator else 0)
  else if sqrtPrice ≥ sqrtPriceUpper then
    let denominator := sqrtPriceUpper - sqrtPriceLower
    some (if denominator > 0 then amount1 / denominator else 0)
  else
    let denom0 := 1 / sqrtPrice - 1 / sqrtPriceUpper
    let denom1 := sqrtPrice - sqrtPriceLower
    let liquidity0 : Option ℚ := if denom0 > 0 then some (amount0 / denom0) else none
    let liquidity1 : Option ℚ := if denom1 > 0 then some (amount1 / denom1) else none
    jsMin liquidity0 liquidity1

/-- Embedding of `positiveTickToSqrtPriceX64` (`src/src/utils/tickMath.ts`
lines 19–44): the squaring ladder `sqrt(1.0001^tick) * 2^64` computed by one
64.64 fixed-point multiplication per set bit of `tick`; `shrn 64` is floor
division by `2^64`. -/
def positiveTickToSqrtPriceX64 (tick : ℕ) : ℕ :=
  let ratio := 2 ^ 64
  let ratio := if tick.testBit 0 then ratio * 18446920394820956382 / 2 ^ 64 else ratio
  let ratio := if tick.testBit 1 then ratio * 18447543041086839124 / 2 ^ 64 else ratio
  let ratio := if tick.testBit 2 then ratio * 18448788321568618856 / 2 ^ 64 else ratio
  let ratio := if tick.testBit 3 then ratio * 18451278912259688804 / 2 ^ 64 else ratio
  let ratio := if tick.testBit 4 then ratio * 18456260700440286180 / 2 ^ 64 else ratio
  let ratio := if tick.testBit 5 then ratio * 18466227088285128992 / 2 ^ 64 else ratio
  let ratio := if tick.testBit 6 then ratio * 18486176269077767396 / 2 ^ 64 else ratio
  let ratio := if tick.testBit 7 then ratio * 18526121399127943904 / 2 ^ 64 else ratio
  let ratio := if tick.testBit 8 then ratio * 18606151220093388560 / 2 ^ 64 else ratio
  let ratio := if tick.testBit 9 then ratio * 18766697328019620032 / 2 ^ 64 else ratio
  let ratio := if tick.testBit 10 then ratio * 19089995656998392688 / 2 ^ 64 else ratio
  let ratio := if tick.testBit 11 then ratio * 19744342969342036992 / 2 ^ 64 else ratio
  let ratio := if tick.testBit 12 then ratio * 21082570671088890880 / 2 ^ 64 else ratio
  let ratio := if tick.testBit 13 then ratio * 23877027239886474240 / 2 ^ 64 else ratio
  let ratio := if tick.testBit 14 then ratio * 30652171879639855104 / 2 ^ 64 else ratio
  let ratio := if tick.testBit 15 then ratio * 50462168082356239360 / 2 ^ 64 else ratio
  let ratio := if tick.testBit 16 then ratio * 136757009941330165760 / 2 ^ 64 else ratio
  let ratio := if tick.testBit 17 then ratio * 1005195981313053343232 / 2 ^ 64 else ratio
  let ratio := if tick.testBit 18 then ratio * 54353303137758275584000 / 2 ^ 64 else ratio
  ratio

/-- Embedding of `tickToSqrtPriceX64` (`tickMath.ts` lines 11–53): negative
ticks invert the positive-tick result through `2^128 / sqrtPrice`. -/
def tickToSqrtPriceX64 (tick : ℤ) : ℕ :=
  if 0 ≤ tick then positiveTickToSqrtPriceX64 tick.toNat
  else 2 ^ 128 / positiveTickToSqrtPriceX64 tick.natAbs

/-- Embedding of `getAmountAFromLiquidity` (liquidityMath,
`src/unnamed/part_004` lines 123–137):
`amountA = L * (upper - lower) * 2^64 / (lower * upper)` with the
divide-by-zero guard returning `0`.  All call sites pass
`lower ≤ upper`, so `ℕ` subtraction matches `BN.sub`. -/
def getAmountAFromLiquidity (sqrtPriceLowerX64 sqrtPriceUpperX64 liquidity : ℕ) : ℕ :=
  let diff := sqrtPriceUpperX64 - sqrtPriceLowerX64
  let numerator := liquidity * diff * 2 ^ 64
  let denominator := sqrtPriceLowerX64 * sqrtPriceUpperX64
  if denominator = 0 then 0 else numerator / denominator

/-- Embedding of `getAmountBFromLiquidity` (liquidityMath, lines 143–150):
`amountB = L * (upper - lower) >> 64`. -/
def getAmountBFromLiquidity (sqrtPriceLowerX64 sqrtPriceUpperX64 liquidity : ℕ) : ℕ :=
  let diff := sqrtPriceUpperX64 - sqrtPriceLowerX64
  liquidity * diff / 2 ^ 64

/-- Result record of `getCoinAmountsFromLiquidity` (`{ amountA, amountB }`). -/
structure CoinAmounts where
  amountA : ℕ
  amountB : ℕ
deriving DecidableEq, Repr

/-- Embedding of `getCoinAmountsFromLiquidity` (liquidityMath,
`src/unnamed/part_004` lines 92–117): the Cetus-SDK-style conversion from
liquidity to coin amounts; note that *below* range it puts everything in
token A and *above* range everything in token B. -/
def getCoinAmountsFromLiquidity (liquidity sqrtPriceX64 : ℕ) (tickLower tickUpper : ℤ) :
    CoinAmounts :=
  let sqrtPriceLowerX64 := tickToSqrtPriceX64 tickLower
  let sqrtPriceUpperX64 := tickToSqrtPriceX64 tickUpper
  if sqrtPriceX64 ≤ sqrtPriceLowerX64 then
    { amountA := getAmountAFromLiquidity sqrtPriceLowerX64 sqrtPriceUpperX64 liquidity
      amountB := 0 }
  else if sqrtPriceX64 ≥ sqrtPriceUpperX64 then
    { amountA := 0
      amountB := getAmountBFromLiquidity sqrtPriceLowerX64 sqrtPriceUpperX64 liquidity }
  else
    { amountA := getAmountAFromLiquidity sqrtPriceX64 sqrtPriceUpperX64 liquidity
      amountB := getAmountBFromLiquidity sqrtPriceLowerX64 sqrtPriceX64 liquidity }

/-- Result record of `calculateCLMM_IL` (`CLMMILResult`). -/
structure CLMMILResult where
  ilPercentage : ℚ
  valueHold : ℚ
  valuePool : ℚ
  initialAmountA : ℚ
  initialAmountB : ℚ
  finalAmountA : ℚ
  finalAmountB : ℚ
  isOutOfRange : Bool
  outOfRangeDirection : RangeDir
deriving DecidableEq, Repr

/-- The zero-IL fallback record returned by `calculateCLMM_IL` when the
implied liquidity is non-positive or non-finite
(`src/unnamed/part_000` lines 261–274). -/
def degenerateILResult (targetPrice amountAInitial amountBInitial : ℚ) : CLMMILResult :=
  { ilPercentage := 0
    valueHold := amountAInitial * targetPrice + amountBInitial
    valuePool := amountAInitial * targetPrice + amountBInitial
    initialAmountA := amountAInitial
    initialAmountB := amountBInitial
    finalAmountA := amountAInitial
    finalAmountB := amountBInitial
    isOutOfRange := false
    outOfRangeDirection := RangeDir.inRange }

/-- Embedding of `calculateCLMM_IL` (clmmMath, `src/unnamed/part_000`
lines 229–311).  The four interior `Math.sqrt` calls (lines 246–249) have
no exact counterpart on `ℚ`; their results are taken as arguments
`sqrtEntry, sqrtTarget, sqrtLower, sqrtUpper`, constrained in the theorems
by `s * s = radicand ∧ 0 ≤ s`.  The `none` case of the implied liquidity
models the `!isFinite(liquidity)` test (`Infinity`), the `l ≤ 0` test the
`liquidity <= 0` one. -/
def calculateCLMM_IL
    (entryPrice targetPrice priceLower priceUpper amountAInitial amountBInitial
      sqrtEntry sqrtTarget sqrtLower sqrtUpper : ℚ) :
    Except String CLMMILResult :=
  if priceLower ≥ priceUpper then
    Except.error "Price lower must be less than price upper"
  else if entryPrice ≤ 0 ∨ targetPrice ≤ 0 then
    Except.error "Prices must be positive"
  else
    match getLiquidityFromAmounts sqrtEntry sqrtLower sqrtUpper amountAInitial amountBInitial with
    | none => Except.ok (degenerateILResult targetPrice amountAInitial amountBInitial)
    | some liquidity =>
      if liquidity ≤ 0 then
        Except.ok (degenerateILResult targetPrice amountAInitial amountBInitial)
      else
        let initialPos := getAmountsForLiquidity sqrtEntry sqrtLower sqrtUpper liquidity
        let finalPos := getAmountsForLiquidity sqrtTarget sqrtLower sqrtUpper liquidity
        let valueHold := initialPos.amount0 * targetPrice + initialPos.amount1
        let valuePool := finalPos.amount0 * targetPrice + finalPos.amount1
        let ilPercentage := if valueHold > 0 then (valuePool - valueHold) / valueHold * 100 else 0
        let outOfRangeDirection :=
          if targetPrice < priceLower then RangeDir.below
          else if targetPrice > priceUpper then RangeDir.above
          else RangeDir.inRange
        Except.ok
          { ilPercentage := ilPercentage
            valueHold := valueHold
            valuePool := valuePool
            initialAmountA := initialPos.amount0
            initialAmountB := initialPos.amount1
            finalAmountA := finalPos.amount0
            finalAmountB := finalPos.amount1
            isOutOfRange := decide (outOfRangeDirection ≠ RangeDir.inRange)
            outOfRangeDirection := outOfRangeDirection }

/-- `CETUS_PROTOCOL_FEE_RATE = 0.20` (`src/unnamed/part_000` line 423). -/
def CETUS_PROTOCOL_FEE_RATE : ℚ := 20 / 100

/-- `CETUS_LP_FEE_SHARE = 0.80` (`src/unnamed/part_000` line 424). -/
def CETUS_LP_FEE_SHARE : ℚ := 80 / 100

/-- Result record of `calculateCLMMAPY`. -/
structure APYResult where
  apy : ℚ
  dailyFees : ℚ
  capitalEfficiency : ℚ
  protocolFee : ℚ
deriving DecidableEq, Repr

/-- Embedding of `calculateCLMMAPY` (clmmMath, `src/unnamed/part_000`
lines 444–479): fee-derived APY with capital-efficiency weighting, the
20/80 protocol/LP fee split, 365-day daily compounding and a 100000% cap. -/
def calculateCLMMAPY
    (dailyVolume feeRate positionValueUSD totalPoolTVL priceRangeWidth : ℚ) : APYResult :=
  if positionValueUSD ≤ 0 ∨ totalPoolTVL ≤ 0 then
    { apy := 0, dailyFees := 0, capitalEfficiency := 1, protocolFee := 0 }
  else
    let capitalEfficiency := if priceRangeWidth > 0 then min (1 / priceRangeWidth) 100 else 1
    let effectiveShare := positionValueUSD / totalPoolTVL * capitalEfficiency
    let totalSwapFees := dailyVolume * feeRate * min effectiveShare 1
    let protocolFee := totalSwapFees * CETUS_PROTOCOL_FEE_RATE
    let dailyFees := totalSwapFees * CETUS_LP_FEE_SHARE
    let dailyYield := dailyFees / positionValueUSD
    let apy := ((1 + dailyYield) ^ (365 : ℕ) - 1) * 100
    { apy := min apy 100000
      dailyFees := dailyFees
      capitalEfficiency := capitalEfficiency
      protocolFee := protocolFee }

/-- Recommendation tag for
`'recommended' | 'neutral' | 'not-recommended'`. -/
inductive Recommendation where
  | recommended
  | neutral
  | notRecommended
deriving DecidableEq, Repr

/-- `x < c` on JS numbers where `x : Option ℚ` encodes a possibly-infinite
value (`none = Infinity`): `Infinity < c` is false. -/
def infLt : Option ℚ → ℚ → Bool
  | none, _ => false
  | some x, c => decide (x < c)

/-- `x > c` with `none = Infinity`: `Infinity > c` is true. -/
def infGt : Option ℚ → ℚ → Bool
  | none, _ => true
  | some x, c => decide (c < x)

/-- Result record of `simulateRebalance` (`RebalanceScenario`);
`breakEvenDays : Option ℚ` with `none` for the source's `Infinity`.  The
human-readable `reason` string (built with float `toFixed` formatting) is
presentation-only and has no exact `ℚ` counterpart; it is determined by
the same branch as `recommendation` and is omitted. -/
structure RebalanceScenario where
  newPriceLower : ℚ
  newPriceUpper : ℚ
  gasCostUSD : ℚ
  newAPY : ℚ
  breakEvenDays : Option ℚ
  recommendation : Recommendation
deriving DecidableEq, Repr

/-- Embedding of `simulateRebalance` (clmmMath, `src/unnamed/part_000`
lines 495–555): gas cost of two transactions, old/new APY via
`calculateCLMMAPY` on each range's width, break-even days
(`Infinity` when the daily-fee delta is non-positive), and the ordered
recommendation decision table. -/
def simulateRebalance
    (currentPrice oldPriceLower oldPriceUpper newPriceLower newPriceUpper
      positionValueUSD dailyVolume feeRate totalPoolTVL gasCostSUI suiPriceUSD : ℚ) :
    RebalanceScenario :=
  let gasCostUSD := gasCostSUI * suiPriceUSD * 2
  let oldRangeWidth := (oldPriceUpper - oldPriceLower) / currentPrice
  let oldAPY := calculateCLMMAPY dailyVolume feeRate positionValueUSD totalPoolTVL oldRangeWidth
  let newRangeWidth := (newPriceUpper - newPriceLower) / currentPrice
  let newAPY := calculateCLMMAPY dailyVolume feeRate positionValueUSD totalPoolTVL newRangeWidth
  let dailyGain := newAPY.dailyFees - oldAPY.dailyFees
  let breakEvenDays : Option ℚ := if dailyGain > 0 then some (gasCostUSD / dailyGain) else none
  let isInNewRange := newPriceLower ≤ currentPrice ∧ currentPrice ≤ newPriceUpper
  let wasOutOfRange := currentPrice < oldPriceLower ∨ oldPriceUpper < currentPrice
  let recommendation :=
    if ¬ isInNewRange then Recommendation.notRecommended
    else if wasOutOfRange ∧ isInNewRange then Recommendation.recommended
    else if infLt breakEvenDays 7 then Recommendation.recommended
    else if infGt breakEvenDays 30 then Recommendation.notRecommended
    else Recommendation.neutral
  { newPriceLower := newPriceLower
    newPriceUpper := newPriceUpper
    gasCostUSD := gasCostUSD
    newAPY := newAPY.apy
    breakEvenDays := breakEvenDays
    recommendation := recommendation }

/-- `Math.round`: round half toward positive infinity. -/
def jsRound (x : ℚ) : ℤ := ⌊x + 1 / 2⌋

/-- Status tier of `PositionHealth`. -/
inductive HealthStatus where
  | excellent
  | good
  | fair
  | poor
  | critical
deriving DecidableEq, Repr

/-- The four summary strings of `calculatePositionHealth`, as tags (the
exact message text is presentation-only). -/
inductive HealthSummary where
  | outOfRange
  | highIL
  | feesOutpaceIL
  | monitoring
deriving DecidableEq, Repr

/-- Sub-score record (`factors`) of `PositionHealth`. -/
structure PositionHealthFactors where
  inRangeScore : ℤ
  ilScore : ℤ
  feeEarningScore : ℤ
  capitalEfficiencyScore : ℤ
deriving DecidableEq, Repr

/-- Result record of `calculatePositionHealth`. -/
structure PositionHealth where
  score : ℤ
  status : HealthStatus
  factors : PositionHealthFactors
  summary : HealthSummary
deriving DecidableEq, Repr

/-- Embedding of `calculatePositionHealth` (clmmMath,
`src/unnamed/part_000` lines 730–794): composite position-health score from
an in-range sub-score, an IL sub-score, a fee-earning sub-score and a
capital-efficiency sub-score, with a status tier and a summary tag. -/
def calculatePositionHealth
    (currentPrice priceLower priceUpper ilPercentage feeAPR daysInPosition : ℚ) :
    PositionHealth :=
  let isInRange := priceLower ≤ currentPrice ∧ currentPrice ≤ priceUpper
  let distanceToEdge :=
    if isInRange then
      min ((currentPrice - priceLower) / currentPrice)
        ((priceUpper - currentPrice) / currentPrice)
    else 0
  let inRangeScore := if isInRange then min 30 (15 + distanceToEdge * 150) else 0
  let ilScore := max 0 (25 + ilPercentage / 2)
  let estimatedFeesEarned := feeAPR / 365 * daysInPosition
  let netReturn := ilPercentage + estimatedFeesEarned
  let feeEarningScore := if netReturn ≥ 0 then 25 else max 0 (25 + netReturn)
  let rangeWidth := (priceUpper - priceLower) / currentPrice
  let capitalEfficiency := 1 / rangeWidth
  let capitalEfficiencyScore := min 20 (capitalEfficiency * 2)
  let score := jsRound (inRangeScore + ilScore + feeEarningScore + capitalEfficiencyScore)
  let status :=
    if score ≥ 80 then HealthStatus.excellent
    else if score ≥ 60 then HealthStatus.good
    else if score ≥ 40 then HealthStatus.fair
    else if score ≥ 20 then HealthStatus.poor
    else HealthStatus.critical
  let summary :=
    if ¬ isInRange then HealthSummary.outOfRange
    else if ilPercentage < -20 then HealthSummary.highIL
    else if feeAPR > |ilPercentage * 12| then HealthSummary.feesOutpaceIL
    else HealthSummary.monitoring
  { score := score
    status := status
    factors :=
      { inRangeScore := jsRound inRangeScore
        ilScore := jsRound ilScore
        feeEarningScore := jsRound feeEarningScore
        capitalEfficiencyScore := jsRound capitalEfficiencyScore }
    summary := summary }

/-- Embedding of `priceToSqrtPriceX64` (`src/src/utils/tickMath.ts`
lines 95–109).  The `Math.sqrt(adjustedPrice)` value (line 101, where
`adjustedPrice = price / 10^(decimalsA - decimalsB)`) is taken as the
argument `sqrtAdjusted`, per the sqrt convention above.  `Except` is the
error channel of the error taxonomy; the source body never throws, and for
`price <= 0` it returns the substitute value `new BN(0)`. -/
def priceToSqrtPriceX64 (price : ℚ) (decimalsA decimalsB : ℤ) (sqrtAdjusted : ℚ) :
    Except String ℤ :=
  if price ≤ 0 then Except.ok 0
  else Except.ok (⌊sqrtAdjusted * 10 ^ 18⌋ * 2 ^ 64 / 10 ^ 18)

/-- Embedding of `alignTickToSpacing` (`tickMath.ts` lines 114–119):
`Math.ceil`/`Math.floor` of `tick / tickSpacing` times `tickSpacing`.  The
source performs no validation of `tickSpacing` and never throws.  (For
`tickSpacing = 0` JS yields `NaN` while the `ℚ` model yields `0`; the
theorems stay away from that point.) -/
def alignTickToSpacing (tick tickSpacing : ℤ) (roundUp : Bool) : Except String ℤ :=
  if roundUp then Except.ok (⌈(tick : ℚ) / (tickSpacing : ℚ)⌉ * tickSpacing)
  else Except.ok (⌊(tick : ℚ) / (tickSpacing : ℚ)⌋ * tickSpacing)

end CetusSim

namespace CetusSim

/-- C1: below range `getAmountsForLiquidity` is all token1 with
`amount1 = L*(√Pb-√Pa)`; above range all token0 with
`amount0 = L*(1/√Pa-1/√Pb)`; in range the mixed formulas hold. -/
theorem getAmountsForLiquidity_regimes
    (sqrtPrice sqrtPriceLower sqrtPriceUpper L : ℚ)
    (hL : 0 ≤ L) (hlt : sqrtPriceLower < sqrtPriceUpper) :
    (sqrtPrice ≤ sqrtPriceLower →
      getAmountsForLiquidity sqrtPrice sqrtPriceLower sqrtPriceUpper L =
        { amount0 := 0, amount1 := L * (sqrtPriceUpper - sqrtPriceLower) }) ∧
    (sqrtPrice ≥ sqrtPriceUpper →
      getAmountsForLiquidity sqrtPrice sqrtPriceLower sqrtPriceUpper L =
        { amount0 := L * (1 / sqrtPriceLower - 1 / sqrtPriceUpper), amount1 := 0 }) ∧
    (sqrtPriceLower < sqrtPrice → sqrtPrice < sqrtPriceUpper →
      getAmountsForLiquidity sqrtPrice sqrtPriceLower sqrtPriceUpper L =
        { amount0 := L * (1 / sqrtPrice - 1 / sqrtPriceUpper),
          amount1 := L * (sqrtPrice - sqrtPriceLower) }) := by
  refine ⟨fun h₁ => ?_, fun h₂ => ?_, fun h₃ h₄ => ?_⟩
  · simp [getAmountsForLiquidity, h₁]
  · have hnot : ¬ sqrtPrice ≤ sqrtPriceLower := by
      intro hcon
      exact absurd (lt_of_lt_of_le hlt h₂) (not_lt.mpr hcon)
    simp [getAmountsForLiquidity, hnot, h₂]
  · have hnot : ¬ sqrtPrice ≤ sqrtPriceLower := not_le.mpr h₃
    have hnot' : ¬ sqrtPrice ≥ sqrtPriceUpper := not_le.mpr h₄
    simp [getAmountsForLiquidity, hnot, hnot']

/-- Witness for C1 at concrete sqrt prices `(√Pa, √Pb) = (2, 3)`, `L = 5`. -/
theorem getAmountsForLiquidity_regimes_witness :
    (0:ℚ) ≤ 5 ∧ (2:ℚ) < 3 ∧
    getAmountsForLiquidity 1 2 3 5 = { amount0 := 0, amount1 := 5 * ((3:ℚ) - 2) } := by
  refine ⟨by norm_num, by norm_num, ?_⟩
  exact (getAmountsForLiquidity_regimes 1 2 3 5 (by norm_num) (by norm_num)).1 (by norm_num)

/-- C2: for strictly in-range prices, feeding the amounts produced by
`getAmountsForLiquidity` back into `getLiquidityFromAmounts` recovers the
original liquidity exactly (both implied liquidities equal `L`, so the
in-range `Math.min` is `L`). -/
theorem getLiquidityFromAmounts_roundtrip
    (sqrtPrice sqrtPriceLower sqrtPriceUpper L : ℚ)
    (hL : 0 < L) (hpl : 0 < sqrtPriceLower)
    (h1 : sqrtPriceLower < sqrtPrice) (h2 : sqrtPrice < sqrtPriceUpper) :
    getLiquidityFromAmounts sqrtPrice sqrtPriceLower sqrtPriceUpper
      (getAmountsForLiquidity sqrtPrice sqrtPriceLower sqrtPriceUpper L).amount0
      (getAmountsForLiquidity sqrtPrice sqrtPriceLower sqrtPriceUpper L).amount1 =
      some L := by
  have hp : 0 < sqrtPrice := hpl.trans h1
  have hnotle : ¬ sqrtPrice ≤ sqrtPriceLower := not_le.mpr h1
  have hnotge : ¬ sqrtPrice ≥ sqrtPriceUpper := not_le.mpr h2
  have hd0 : (0:ℚ) < 1 / sqrtPrice - 1 / sqrtPriceUpper :=
    sub_pos.mpr (one_div_lt_one_div_of_lt hp h2)
  have hd1 : (0:ℚ) < sqrtPrice - sqrtPriceLower := sub_pos.mpr h1
  simp only [getAmountsForLiquidity, getLiquidityFromAmounts,
    if_neg hnotle, if_neg hnotge, if_pos hd0, if_pos hd1, jsMin]
  rw [mul_div_assoc, mul_div_assoc, div_self hd0.ne', div_self hd1.ne',
    mul_one, min_self]

/-- Witness for C2: `√P = 2`, `√Pa = 1`, `√Pb = 4`, `L = 3`. -/
theorem getLiquidityFromAmounts_roundtrip_witness :
    (0:ℚ) < 3 ∧ (0:ℚ) < 1 ∧ (1:ℚ) < 2 ∧ (2:ℚ) < 4 ∧
    getLiquidityFromAmounts 2 1 4
      (getAmountsForLiquidity 2 1 4 3).amount0
      (getAmountsForLiquidity 2 1 4 3).amount1 = some 3 := by
  refine ⟨by norm_num, by norm_num, by norm_num, by norm_num, ?_⟩
  exact getLiquidityFromAmounts_roundtrip 2 1 4 3
    (by norm_num) (by norm_num) (by norm_num) (by norm_num)

/-- C6: with price strictly below the range and positive liquidity, the
clmmMath implementation (`getAmountsForLiquidity`, at sqrt prices
`√P = 1 < √Pa = 2 < √Pb = 3`, `L = 5`) reports the whole position in the
second token (`amount0 = 0`, `amount1 > 0`), while the liquidityMath
implementation (`getCoinAmountsFromLiquidity`, at `sqrtPriceX64 = 2^63`
below `tickLower = 0`, `tickUpper = 64`, `L = 2^64`) reports it entirely
in the first token (`amountA > 0`, `amountB = 0`): the two versions invert
the below-range token assignment. -/
theorem amountsFromLiquidity_conventions_diverge :
    ((getAmountsForLiquidity 1 2 3 5).amount0 = 0 ∧
      (getAmountsForLiquidity 1 2 3 5).amount1 > 0) ∧
    ((getCoinAmountsFromLiquidity (2 ^ 64) (2 ^ 63) 0 64).amountA > 0 ∧
      (getCoinAmountsFromLiquidity (2 ^ 64) (2 ^ 63) 0 64).amountB = 0) := by
  constructor
  · constructor
    · simp [getAmountsForLiquidity]
    · norm_num [getAmountsForLiquidity]
  · constructor
    · decide
    · decide

/-- C3: `calculateCLMM_IL` errors exactly when `priceLower ≥ priceUpper` or
a non-positive entry/target price is supplied; on every other input whose
implied liquidity is non-finite (`none`) or non-positive it succeeds with
the zero-IL fallback record, whose `valueHold` and `valuePool` both equal
`amountAInitial * targetPrice + amountBInitial`. -/
theorem calculateCLMM_IL_error_iff_and_degenerate
    (entryPrice targetPrice priceLower priceUpper A B sE sT sL sU : ℚ) :
    ((calculateCLMM_IL entryPrice targetPrice priceLower priceUpper A B sE sT sL sU).isOk
        = false ↔
      (priceLower ≥ priceUpper ∨ entryPrice ≤ 0 ∨ targetPrice ≤ 0)) ∧
    (priceLower < priceUpper → 0 < entryPrice → 0 < targetPrice →
      (getLiquidityFromAmounts sE sL sU A B = none ∨
        ∃ l, getLiquidityFromAmounts sE sL sU A B = some l ∧ l ≤ 0) →
      calculateCLMM_IL entryPrice targetPrice priceLower priceUpper A B sE sT sL sU =
        Except.ok (degenerateILResult targetPrice A B) ∧
      (degenerateILResult targetPrice A B).ilPercentage = 0 ∧
      (degenerateILResult targetPrice A B).valueHold = A * targetPrice + B ∧
      (degenerateILResult targetPrice A B).valuePool = A * targetPrice + B) := by
  constructor
  · by_cases hc1 : priceLower ≥ priceUpper
    · simp [calculateCLMM_IL, hc1, Except.isOk, Except.toBool]
    · by_cases hc2 : entryPrice ≤ 0 ∨ targetPrice ≤ 0
      · simp [calculateCLMM_IL, hc1, hc2, Except.isOk, Except.toBool]
      · rcases hliq : getLiquidityFromAmounts sE sL sU A B with _ | l
        · simp [calculateCLMM_IL, hc1, hc2, hliq, Except.isOk, Except.toBool]
        · by_cases hl : l ≤ 0 <;>
            simp [calculateCLMM_IL, hc1, hc2, hliq, hl, Except.isOk, Except.toBool]
  · intro h1 h2 h3 hdeg
    have hc1 : ¬ priceLower ≥ priceUpper := not_le.mpr h1
    have hc2 : ¬ (entryPrice ≤ 0 ∨ targetPrice ≤ 0) := by
      push_neg
      exact ⟨h2, h3⟩
    refine ⟨?_, rfl, rfl, rfl⟩
    rcases hdeg with hnone | ⟨l, hsome, hl⟩
    · simp [calculateCLMM_IL, hc1, hc2, hnone]
    · simp [calculateCLMM_IL, hc1, hc2, hsome, hl]

/-- Witness for C3 at `entry = target = 4`, range `(1, 9)`, zero amounts
(implied liquidity `0`, hence degenerate), sqrt values `2, 2, 1, 3`. -/
theorem calculateCLMM_IL_error_iff_and_degenerate_witness :
    calculateCLMM_IL 4 4 1 9 0 0 2 2 1 3 = Except.ok (degenerateILResult 4 0 0) := by
  have h := (calculateCLMM_IL_error_iff_and_degenerate 4 4 1 9 0 0 2 2 1 3).2
    (by norm_num) (by norm_num) (by norm_num)
    (Or.inr ⟨0, by norm_num [getLiquidityFromAmounts, jsMin], le_refl 0⟩)
  exact h.1

/-- C10: when the target price equals the entry price (hence equal sqrt
values), `calculateCLMM_IL` succeeds and reports exactly zero impermanent
loss, for any valid range containing the entry price and non-negative
initial amounts. -/
theorem calculateCLMM_IL_zero_at_entry
    (entryPrice priceLower priceUpper A B sE sL sU : ℚ)
    (hrange : priceLower < priceUpper) (hentry : 0 < entryPrice)
    (hlow : priceLower ≤ entryPrice) (hhigh : entryPrice ≤ priceUpper)
    (hA : 0 ≤ A) (hB : 0 ≤ B) :
    ∃ r, calculateCLMM_IL entryPrice entryPrice priceLower priceUpper A B sE sE sL sU =
        Except.ok r ∧ r.ilPercentage = 0 := by
  have hc1 : ¬ priceLower ≥ priceUpper := not_le.mpr hrange
  have hc2 : ¬ (entryPrice ≤ 0 ∨ entryPrice ≤ 0) := by
    push_neg
    exact ⟨hentry, hentry⟩
  rcases hliq : getLiquidityFromAmounts sE sL sU A B with _ | l
  · exact ⟨degenerateILResult entryPrice A B,
      by simp [calculateCLMM_IL, hc1, hc2, hliq, hentry.not_le], rfl⟩
  · by_cases hl : l ≤ 0
    · exact ⟨degenerateILResult entryPrice A B,
        by simp [calculateCLMM_IL, hc1, hc2, hliq, hl, hentry.not_le], rfl⟩
    · refine ⟨⟨0,
        (getAmountsForLiquidity sE sL sU l).amount0 * entryPrice +
          (getAmountsForLiquidity sE sL sU l).amount1,
        (getAmountsForLiquidity sE sL sU l).amount0 * entryPrice +
          (getAmountsForLiquidity sE sL sU l).amount1,
        (getAmountsForLiquidity sE sL sU l).amount0,
        (getAmountsForLiquidity sE sL sU l).amount1,
        (getAmountsForLiquidity sE sL sU l).amount0,
        (getAmountsForLiquidity sE sL sU l).amount1,
        false, RangeDir.inRange⟩, ?_, rfl⟩
      simp [calculateCLMM_IL, hc1, hc2, hliq, hl, hentry.not_le,
        not_lt.mpr hlow, not_lt.mpr hhigh]

/-- Witness for C10: entry `4` inside range `(1, 9)`, amounts `(1, 2)`,
sqrt values `2, 1, 3`. -/
theorem calculateCLMM_IL_zero_at_entry_witness :
    ∃ r, calculateCLMM_IL 4 4 1 9 1 2 2 2 1 3 = Except.ok r ∧ r.ilPercentage = 0 :=
  calculateCLMM_IL_zero_at_entry 4 1 9 1 2 2 1 3
    (by norm_num) (by norm_num) (by norm_num) (by norm_num) (by norm_num) (by norm_num)

/-- C4 counterexample: in the concrete scenario the LP daily fees are
`10000 * 0.003 * min(1000/1e6 * 10, 1) * 0.8 = 0.24`, not `30`: the
claimed formula itself evaluates to `0.3`, and the code additionally
multiplies by the 80% LP share before reporting `dailyFees`. -/
theorem calculateCLMMAPY_scenario_dailyFees_ne :
    (calculateCLMMAPY 10000 (3/1000) 1000 1000000 (1/10)).dailyFees = 6/25 ∧
      ((6:ℚ)/25) ≠ 30 := by
  constructor
  · norm_num [calculateCLMMAPY, CETUS_LP_FEE_SHARE]
  · norm_num

/-- C4 amended: the scenario yields `capitalEfficiency = 10`, LP
`dailyFees = 10000*0.003*min(1000/1e6*10,1)*0.8 = 0.24`,
`protocolFee = 0.06`, and the APY is obtained by compounding the daily
yield `0.24/1000` over 365 days (the 100000% cap does not bind). -/
theorem calculateCLMMAPY_scenario :
    (calculateCLMMAPY 10000 (3/1000) 1000 1000000 (1/10)).capitalEfficiency = 10 ∧
    (calculateCLMMAPY 10000 (3/1000) 1000 1000000 (1/10)).dailyFees =
      10000 * (3/1000) * min (1000/1000000 * 10) 1 * (80/100) ∧
    (calculateCLMMAPY 10000 (3/1000) 1000 1000000 (1/10)).protocolFee = 6/100 ∧
    (calculateCLMMAPY 10000 (3/1000) 1000 1000000 (1/10)).apy =
      ((1 + (6/25) / 1000) ^ (365:ℕ) - 1) * 100 := by
  refine ⟨?_, ?_, ?_, ?_⟩
  · norm_num [calculateCLMMAPY]
  · norm_num [calculateCLMMAPY, CETUS_LP_FEE_SHARE]
  · norm_num [calculateCLMMAPY, CETUS_PROTOCOL_FEE_RATE]
  · norm_num [calculateCLMMAPY, CETUS_LP_FEE_SHARE]

/-- C7 counterexample: on a degenerate input (`positionValueUSD = 0`) the
early-return record has `capitalEfficiency = 1`, not `0` as claimed. -/
theorem calculateCLMMAPY_degenerate_counterexample :
    (calculateCLMMAPY 5 (3/1000) 0 100 (1/10)).capitalEfficiency = 1 ∧ (1:ℚ) ≠ 0 := by
  constructor
  · norm_num [calculateCLMMAPY]
  · norm_num

/-- C7 amended: for `positionValueUSD ≤ 0` or `totalPoolTVL ≤ 0`,
`calculateCLMMAPY` returns (without error) `apy = 0`, `dailyFees = 0`,
`protocolFee = 0` and the neutral multiplier `capitalEfficiency = 1`. -/
theorem calculateCLMMAPY_degenerate
    (dailyVolume feeRate positionValueUSD totalPoolTVL priceRangeWidth : ℚ)
    (h : positionValueUSD ≤ 0 ∨ totalPoolTVL ≤ 0) :
    calculateCLMMAPY dailyVolume feeRate positionValueUSD totalPoolTVL priceRangeWidth =
      { apy := 0, dailyFees := 0, capitalEfficiency := 1, protocolFee := 0 } := by
  simp [calculateCLMMAPY, h]

/-- Witness for C7 amended at `positionValueUSD = 0`. -/
theorem calculateCLMMAPY_degenerate_witness :
    calculateCLMMAPY 5 (3/1000) 0 100 (1/10) =
      { apy := 0, dailyFees := 0, capitalEfficiency := 1, protocolFee := 0 } :=
  calculateCLMMAPY_degenerate 5 (3/1000) 0 100 (1/10) (Or.inl le_rfl)

/-- C5: `simulateRebalance` applies its decision table in order: price
outside the new range is always not-recommended; a rebalance that brings
an out-of-range position back in range is recommended regardless of gas
cost and break-even time; otherwise break-even under 7 days is
recommended, over 30 days (including `Infinity`) not-recommended, and
anything else neutral. -/
theorem simulateRebalance_decision_table
    (cp opl opu npl npu pv dv fr tvl gas sui : ℚ) :
    (¬ (npl ≤ cp ∧ cp ≤ npu) →
      (simulateRebalance cp opl opu npl npu pv dv fr tvl gas sui).recommendation =
        Recommendation.notRecommended) ∧
    ((npl ≤ cp ∧ cp ≤ npu) → (cp < opl ∨ opu < cp) →
      (simulateRebalance cp opl opu npl npu pv dv fr tvl gas sui).recommendation =
        Recommendation.recommended) ∧
    ((npl ≤ cp ∧ cp ≤ npu) → ¬ (cp < opl ∨ opu < cp) →
      infLt (simulateRebalance cp opl opu npl npu pv dv fr tvl gas sui).breakEvenDays 7 = true →
      (simulateRebalance cp opl opu npl npu pv dv fr tvl gas sui).recommendation =
        Recommendation.recommended) ∧
    ((npl ≤ cp ∧ cp ≤ npu) → ¬ (cp < opl ∨ opu < cp) →
      infLt (simulateRebalance cp opl opu npl npu pv dv fr tvl gas sui).breakEvenDays 7 = false →
      infGt (simulateRebalance cp opl opu npl npu pv dv fr tvl gas sui).breakEvenDays 30 = true →
      (simulateRebalance cp opl opu npl npu pv dv fr tvl gas sui).recommendation =
        Recommendation.notRecommended) ∧
    ((npl ≤ cp ∧ cp ≤ npu) → ¬ (cp < opl ∨ opu < cp) →
      infLt (simulateRebalance cp opl opu npl npu pv dv fr tvl gas sui).breakEvenDays 7 = false →
      infGt (simulateRebalance cp opl opu npl npu pv dv fr tvl gas sui).breakEvenDays 30 = false →
      (simulateRebalance cp opl opu npl npu pv dv fr tvl gas sui).recommendation =
        Recommendation.neutral) := by
  refine ⟨fun h1 => ?_, fun h1 h2 => ?_, fun h1 h2 h3 => ?_,
    fun h1 h2 h3 h4 => ?_, fun h1 h2 h3 h4 => ?_⟩
  · simp [simulateRebalance, h1]
  · simp [simulateRebalance, h1.1, h1.2, h2]
  · simp only [simulateRebalance] at h3 ⊢
    rw [h3]
    simp [h1.1, h1.2, h2]
  · simp only [simulateRebalance] at h3 h4 ⊢
    rw [h3, h4]
    simp [h1.1, h1.2, h2]
  · simp only [simulateRebalance] at h3 h4 ⊢
    rw [h3, h4]
    simp [h1.1, h1.2, h2]

/-- Witness for C5 (second branch): `cp = 10` is outside the old range
`(1, 5)` and inside the new range `(8, 12)`, so the recommendation is
`recommended`. -/
theorem simulateRebalance_decision_table_witness :
    (simulateRebalance 10 1 5 8 12 0 0 0 0 0 0).recommendation =
      Recommendation.recommended :=
  (simulateRebalance_decision_table 10 1 5 8 12 0 0 0 0 0 0).2.1
    ⟨by norm_num, by norm_num⟩ (Or.inr (by norm_num))

/-- C8 failing input: at `currentPrice = 1`, range `(0.5, 1.5)`,
`ilPercentage = +100`, `feeAPR = 0`, `daysInPosition = 30`, the IL
sub-score is `75` (the code computes `max(0, 25 + il/2)` with no upper
cap, contradicting the `// 0-25 points` documentation on the
`PositionHealth` interface) and the total score is `132 > 100`
(contradicting `// 0-100`). -/
theorem calculatePositionHealth_exceeds_caps :
    (calculatePositionHealth 1 (1/2) (3/2) 100 0 30).factors.ilScore = 75 ∧
    (calculatePositionHealth 1 (1/2) (3/2) 100 0 30).score = 132 := by
  constructor <;> norm_num [calculatePositionHealth, jsRound]

/-- C9 counterexample: `priceToSqrtPriceX64` on the non-positive price
`-1` returns the substitute value `BN(0)` instead of raising, and
`alignTickToSpacing` on the non-positive spacing `-1` returns an aligned
tick (`5`) instead of raising. -/
theorem tickMath_no_invalid_input_error :
    priceToSqrtPriceX64 (-1) 6 6 0 = Except.ok 0 ∧
    alignTickToSpacing 5 (-1) false = Except.ok 5 := by
  constructor
  · norm_num [priceToSqrtPriceX64]
  · norm_num [alignTickToSpacing]

/-- C9 amended: the price converter is silent, not failing, on these
inputs: for every `price ≤ 0`, `priceToSqrtPriceX64` returns `BN(0)`
(a substitute value, no error), and `alignTickToSpacing` performs no
validation of `tickSpacing`: at spacing `-1` it returns the tick
unchanged for both rounding modes, no error. -/
theorem tickMath_silent_on_invalid
    (price : ℚ) (dA dB : ℤ) (s : ℚ) (hprice : price ≤ 0)
    (tick : ℤ) (roundUp : Bool) :
    priceToSqrtPriceX64 price dA dB s = Except.ok 0 ∧
    alignTickToSpacing tick (-1) roundUp = Except.ok tick := by
  constructor
  · simp [priceToSqrtPriceX64, hprice]
  · cases roundUp
    · simp [alignTickToSpacing]
      rw [(show (tick : ℚ) / -1 = -(tick : ℚ) by ring),
        ← Int.cast_neg tick, Int.floor_intCast]
      omega
    · simp [alignTickToSpacing]
      rw [(show (tick : ℚ) / -1 = -(tick : ℚ) by ring),
        ← Int.cast_neg tick, Int.ceil_intCast]
      omega

/-- Witness for C9 amended at `price = -1`, `tick = 5`, `roundUp = true`. -/
theorem tickMath_silent_on_invalid_witness :
    priceToSqrtPriceX64 (-1) 6 6 0 = Except.ok 0 ∧
    alignTickToSpacing 5 (-1) true = Except.ok 5 :=
  tickMath_silent_on_invalid (-1) 6 6 0 (by norm_num) 5 true

end CetusSim
